import Mathlib

/-!
Verification of the HandyGCCS HandyCon event pipeline (`handycon.py`).

This file gives a shallow embedding of the pipeline's pure core:
- the per-event body of `capture_keyboard_events` (chord matching over the
  active-key snapshot, the pending-chord queue `event_queue`, the single
  `last_button` flush slot, and the gyro-enable toggle),
- the per-event body of `capture_gyro_events` (axis adjustment and clamping,
  hold-last-value state, and the buffer-draining `for` loop),
- `emit_events` (batch writes followed by one synchronization marker),
- the device-restoration section of `restore`,
- the gyro-acquisition step of `__init__` and the task set created by `main`.

Machine events are modelled with `Nat`/`Int` fields; `evdev` constants are
written out numerically with their names kept as definitions.
-/

namespace HandyCon

/-! ## evdev constants used by the source -/

def EV_KEY : Nat := 1
def EV_MSC : Nat := 4
def EV_ABS : Nat := 3
def BTN_MODE : Nat := 316
def BTN_NORTH : Nat := 307
def BTN_TR : Nat := 311
def MSC_SCAN : Nat := 4
def KEY_ESC : Nat := 1
def KEY_LEFTCTRL : Nat := 29
def KEY_2 : Nat := 3
def ABS_RX : Nat := 3
def ABS_RY : Nat := 4

/-- A logical button's output chord: an ordered list of
`(event_type, code)` pairs, exactly as in the source constants. -/
abbrev Button := List (Nat × Nat)

def EVENT_OSK : Button := [(EV_KEY, BTN_MODE), (EV_KEY, BTN_NORTH)]
def EVENT_ESC : Button := [(EV_MSC, MSC_SCAN), (EV_KEY, KEY_ESC)]
def EVENT_QAM : Button := [(EV_KEY, KEY_LEFTCTRL), (EV_KEY, KEY_2)]
def EVENT_SCR : Button := [(EV_KEY, BTN_MODE), (EV_KEY, BTN_TR)]
def EVENT_HOME : Button := [(EV_KEY, BTN_MODE)]

def JOY_MIN : Int := -32767
def JOY_MAX : Int := 32767

/-- `button_map` of the source configuration. -/
def button_map : List (String × Button) :=
  [("button1", EVENT_SCR), ("button2", EVENT_QAM), ("button3", EVENT_ESC),
   ("button4", EVENT_OSK), ("button5", EVENT_HOME)]

/-- Shortcut `button1 = button_map["button1"]` used in `capture_keyboard_events`. -/
def button1 : Button := EVENT_SCR
def button2 : Button := EVENT_QAM
def button3 : Button := EVENT_ESC
def button4 : Button := EVENT_OSK
def button5 : Button := EVENT_HOME

/-! ## Keyboard chord matcher (`capture_keyboard_events`) -/

/-- One keyboard `seed_event` together with the `device.active_keys()`
snapshot the loop body reads for it.  `value` is the source's `button_on`
edge value (0 = release, 1 = press, 2 = held). -/
structure KbdEvent where
  sec : Int
  usec : Int
  code : Nat
  value : Nat
  active : List Nat
deriving DecidableEq

/-- A synthetic event written to the virtual device
(`InputEvent(sec, usec, type, code, value)`). -/
structure OutEvent where
  sec : Int
  usec : Int
  etype : Nat
  code : Nat
  value : Nat
deriving DecidableEq

/-- The mutable state the keyboard loop body reads and writes:
the global `event_queue` (pending chords), the per-loop `last_button`
slot, and the global `gyro_enabled` flag. -/
structure KbdState where
  eventQueue : List Button
  lastButton : Option Button
  gyroEnabled : Bool
deriving DecidableEq

/-- Which branch of the `if`/`elif` chain of `capture_keyboard_events`
fires for a given event: arm a button (append to `event_queue`), fire a
button's release trigger (set `this_button`), take button3's second-state
branch, or fall through. -/
inductive KbdAction where
  | arm (b : Button)
  | fire (b : Button)
  | secondary
  | noRule
deriving DecidableEq

/-- Guard of the BUTTON 1 arming branch (press edge on the screenshot
chord, not already pending). -/
def b1ArmCond (systemType : String) (s : KbdState) (ev : KbdEvent) : Prop :=
  ((ev.active = [125] ∧ systemType = "AYA_GEN1") ∨ ev.active = [99, 125]) ∧
    ev.value = 1 ∧ button1 ∉ s.eventQueue

/-- Guard of the BUTTON 1 release branch. -/
def b1FireCond (s : KbdState) (ev : KbdEvent) : Prop :=
  ev.active = [] ∧ (ev.code = 99 ∨ ev.code = 125) ∧ ev.value = 0 ∧
    button1 ∈ s.eventQueue

/-- Guard of the BUTTON 2 arming branch. -/
def b2ArmCond (s : KbdState) (ev : KbdEvent) : Prop :=
  (ev.active = [97, 100, 111] ∨ ev.active = [40, 133] ∨ ev.active = [32, 125]) ∧
    ev.value = 1 ∧ button2 ∉ s.eventQueue

/-- Guard of the BUTTON 2 release branch (note: no edge-value check in the
source). -/
def b2FireCond (s : KbdState) (ev : KbdEvent) : Prop :=
  (ev.active = [] ∨ ev.code ∈ ([32, 40, 100, 111] : List Nat)) ∧
    button2 ∈ s.eventQueue

/-- Guard of the BUTTON 3 arming branch. -/
def b3ArmCond (s : KbdState) (ev : KbdEvent) : Prop :=
  (ev.active = [97, 100, 111] ∨ ev.code = 1) ∧ ev.value = 1 ∧
    button3 ∉ s.eventQueue

/-- Guard of the BUTTON 3 release branch. -/
def b3FireCond (s : KbdState) (ev : KbdEvent) : Prop :=
  ev.active = [] ∧ (ev.code = 1 ∨ ev.code = 100) ∧ ev.value = 0 ∧
    button3 ∈ s.eventQueue

/-- Guard of the BUTTON 3 SECOND STATE branch. -/
def b3SecondCond (s : KbdState) (ev : KbdEvent) : Prop :=
  ev.code = 1 ∧ ev.value = 2 ∧ button3 ∈ s.eventQueue

/-- Guard of the BUTTON 4 arming branch. -/
def b4ArmCond (s : KbdState) (ev : KbdEvent) : Prop :=
  ev.active = [24, 97, 125] ∧ ev.value = 1 ∧ button4 ∉ s.eventQueue

/-- Guard of the BUTTON 4 release branch. -/
def b4FireCond (s : KbdState) (ev : KbdEvent) : Prop :=
  ev.active = [97] ∧ ev.value = 0 ∧ button4 ∈ s.eventQueue

/-- Guard of the BUTTON 5 arming branch. -/
def b5ArmCond (s : KbdState) (ev : KbdEvent) : Prop :=
  (ev.active = [96, 105, 133] ∨ ev.active = [97, 125, 88] ∨
      ev.active = [88, 97, 125] ∨ ev.active = [34, 125]) ∧ ev.value = 1 ∧
    button5 ∉ s.eventQueue

/-- Guard of the BUTTON 5 release branch. -/
def b5FireCond (s : KbdState) (ev : KbdEvent) : Prop :=
  ev.code ∈ ([88, 96, 105, 34] : List Nat) ∧ ev.value = 0 ∧
    button5 ∈ s.eventQueue

instance (systemType : String) (s : KbdState) (ev : KbdEvent) :
    Decidable (b1ArmCond systemType s ev) := by unfold b1ArmCond; infer_instance

instance (s : KbdState) (ev : KbdEvent) : Decidable (b1FireCond s ev) := by
  unfold b1FireCond; infer_instance

instance (s : KbdState) (ev : KbdEvent) : Decidable (b2ArmCond s ev) := by
  unfold b2ArmCond; infer_instance

instance (s : KbdState) (ev : KbdEvent) : Decidable (b2FireCond s ev) := by
  unfold b2FireCond; infer_instance

instance (s : KbdState) (ev : KbdEvent) : Decidable (b3ArmCond s ev) := by
  unfold b3ArmCond; infer_instance

instance (s : KbdState) (ev : KbdEvent) : Decidable (b3FireCond s ev) := by
  unfold b3FireCond; infer_instance

instance (s : KbdState) (ev : KbdEvent) : Decidable (b3SecondCond s ev) := by
  unfold b3SecondCond; infer_instance

instance (s : KbdState) (ev : KbdEvent) : Decidable (b4ArmCond s ev) := by
  unfold b4ArmCond; infer_instance

instance (s : KbdState) (ev : KbdEvent) : Decidable (b4FireCond s ev) := by
  unfold b4FireCond; infer_instance

instance (s : KbdState) (ev : KbdEvent) : Decidable (b5ArmCond s ev) := by
  unfold b5ArmCond; infer_instance

instance (s : KbdState) (ev : KbdEvent) : Decidable (b5FireCond s ev) := by
  unfold b5FireCond; infer_instance

/-- The `if`/`elif` chain of `capture_keyboard_events`, line for line; each
guard definition above transcribes one condition of the source.
`ev.active` is the `device.active_keys()` snapshot (a sorted list, compared
with list literals in the source). -/
def kbdMatch (systemType : String) (s : KbdState) (ev : KbdEvent) : KbdAction :=
  if b1ArmCond systemType s ev then .arm button1
  else if b1FireCond s ev then .fire button1
  else if b2ArmCond s ev then .arm button2
  else if b2FireCond s ev then .fire button2
  else if b3ArmCond s ev then .arm button3
  else if b3FireCond s ev then .fire button3
  else if b3SecondCond s ev then .secondary
  else if b4ArmCond s ev then .arm button4
  else if b4FireCond s ev then .fire button4
  else if b5ArmCond s ev then .arm button5
  else if b5FireCond s ev then .fire button5
  else .noRule

/-- `InputEvent(seed.sec, seed.usec, pair[0], pair[1], 1)` for each pair of a
chord: the batch built in the `if this_button:` branch. -/
def pressBatch (ev : KbdEvent) (b : Button) : List OutEvent :=
  b.map (fun p => ⟨ev.sec, ev.usec, p.1, p.2, 1⟩)

/-- `InputEvent(seed.sec, seed.usec, pair[0], pair[1], 0)` for each pair of a
chord: the batch built in the `elif not this_button and last_button:` branch. -/
def releaseBatch (ev : KbdEvent) (b : Button) : List OutEvent :=
  b.map (fun p => ⟨ev.sec, ev.usec, p.1, p.2, 0⟩)

/-- The events contributed by the flush of `last_button` (empty when no
button is awaiting its release flush). -/
def flushEvents : Option Button → KbdEvent → List OutEvent
  | some b, ev => releaseBatch ev b
  | none, _ => []

/-- The output of one loop iteration: the total `asyncio.sleep` delay (in
milliseconds) accumulated before `emit_events` is called, and the event list
passed to it (`emit_events` is only called when the list is non-empty). -/
structure KbdOutput where
  delayMs : Nat
  events : List OutEvent
deriving DecidableEq

/-- The tail of the loop body when `this_button` is not set: if
`last_button` holds a chord, its release batch is built with an
`asyncio.sleep(0.15)` before each pair and `last_button` is cleared. -/
def flushTail (s : KbdState) (ev : KbdEvent) : KbdState × KbdOutput :=
  match s.lastButton with
  | some b => ({ s with lastButton := none }, ⟨150 * b.length, releaseBatch ev b⟩)
  | none => (s, ⟨0, []⟩)

/-- One full iteration of the `capture_keyboard_events` loop body:
the branch chosen by `kbdMatch` followed by the common tail
(`if this_button: ... elif not this_button and last_button: ...`). -/
def kbdStep (systemType : String) (s : KbdState) (ev : KbdEvent) :
    KbdState × KbdOutput :=
  match kbdMatch systemType s ev with
  | .arm b => flushTail { s with eventQueue := s.eventQueue ++ [b] } ev
  | .fire b =>
      ({ s with eventQueue := s.eventQueue.erase b, lastButton := some b },
        ⟨0, pressBatch ev b⟩)
  | .secondary =>
      flushTail { s with eventQueue := s.eventQueue.erase button3,
                         gyroEnabled := !s.gyroEnabled } ev
  | .noRule => flushTail s ev

/-- The initial matcher state: `event_queue = []`, `last_button = None`,
`gyro_enabled = False`. -/
def initialKbdState : KbdState := ⟨[], none, false⟩

/-- Run the keyboard loop body over a whole event sequence from the initial
state. -/
def runKbd (systemType : String) (evs : List KbdEvent) : KbdState :=
  evs.foldl (fun s ev => (kbdStep systemType s ev).1) initialKbdState

/-! ## Gyro fusion loop (`capture_gyro_events`) -/

/-- A native controller event (`InputEvent`); `value` is a signed axis
value for `EV_ABS` events. -/
structure CtrlEvent where
  sec : Int
  usec : Int
  etype : Nat
  code : Nat
  value : Int
deriving DecidableEq

/-- `gyro_sensitivity` from the source configuration. -/
def gyro_sensitivity : Int := 30

/-- `max(min(delta + value, JOY_MAX), JOY_MIN)` where `delta` is
`int(angular_velocity * gyro_sensitivity)`: the adjusted-and-clamped axis
value computed in `capture_gyro_events`. -/
def adjustedVal (delta v : Int) : Int := max (min (delta + v) JOY_MAX) JOY_MIN

/-- `last_x_val` / `last_y_val`: the hold-last-value state of the fusion
loop. -/
structure GyroLoopState where
  last_x_val : Int
  last_y_val : Int
deriving DecidableEq

/-- The body of `for event in controller_events:` applied to one buffered
event, with `dx` (resp. `dy`) the value of
`int(angular_velocity_x * gyro_sensitivity)` sampled in that iteration.
Mirrors the source exactly:
- an `ABS_RX` event is rebuilt with the clamped adjusted value inside its
  branch (so it is rebuilt even when the adjusted value is 0);
- an `ABS_RY` event only records the adjusted value into `last_y_val`; the
  event itself is rebuilt by the trailing `if adjusted_val:` guard, which —
  by Python truthiness — skips both `None` and the integer `0`, so an `RY`
  event whose adjusted value is exactly 0 is emitted with its original value;
- any other event passes through unmodified. -/
def processGyroEvent (dx dy : Int) (st : GyroLoopState) (ev : CtrlEvent) :
    GyroLoopState × CtrlEvent :=
  if ev.etype = EV_ABS ∧ ev.code = ABS_RX then
    let a := adjustedVal dx ev.value
    ({ st with last_x_val := a }, { ev with value := a })
  else if ev.etype = EV_ABS ∧ ev.code = ABS_RY then
    let a := adjustedVal dy ev.value
    if a ≠ 0 then ({ st with last_y_val := a }, { ev with value := a })
    else ({ st with last_y_val := a }, ev)
  else (st, ev)

/-- The `else` branch of the fusion loop (no buffered controller event):
two synthetic events built from the held last values and the sampled
deltas.  `last_x_val`/`last_y_val` are not updated by this branch. -/
def syntheticTick (dx dy : Int) (st : GyroLoopState) : CtrlEvent × CtrlEvent :=
  (⟨0, 0, EV_ABS, ABS_RX, adjustedVal dx st.last_x_val⟩,
   ⟨0, 0, EV_ABS, ABS_RY, adjustedVal dy st.last_y_val⟩)

/-- The `for event in controller_events: ... controller_events.remove(event)`
loop.  Python's list iterator advances an index while the `remove` call
deletes the current element (buffer elements are distinct objects appended
once each, so `remove` deletes exactly the element at the current index);
the iteration therefore visits the element at index `i` of the *shrunken*
list at each step.  The fuel argument bounds the number of iterations; the
loop runs at most `buf.length` times because the length shrinks and the
index grows at every step.  Returns the final hold-last-value state, the
events passed to `emit_events` in emission order, and the buffer contents
left over when the iterator stops. -/
def gyroDrainAux (dx dy : Int) :
    Nat → GyroLoopState → List CtrlEvent → Nat →
    GyroLoopState × List CtrlEvent × List CtrlEvent
  | 0, st, buf, _ => (st, [], buf)
  | fuel + 1, st, buf, i =>
    if h : i < buf.length then
      let ev := buf.get ⟨i, h⟩
      let res := processGyroEvent dx dy st ev
      let rest := gyroDrainAux dx dy fuel res.1 (buf.eraseIdx i) (i + 1)
      (rest.1, res.2 :: rest.2.1, rest.2.2)
    else (st, [], buf)

/-- One pass of the buffer-draining branch of `capture_gyro_events`. -/
def gyroDrain (dx dy : Int) (st : GyroLoopState) (buf : List CtrlEvent) :
    GyroLoopState × List CtrlEvent × List CtrlEvent :=
  gyroDrainAux dx dy buf.length st buf 0

/-- One iteration of `capture_controller_events` (the PassthroughRouter):
if `gyro_enabled` is set, the native event is appended to the
`controller_events` buffer and nothing is emitted (the buffer's only
consumer is `capture_gyro_events`); otherwise the event is emitted
immediately as a one-event batch.  Returns the new buffer and the list
passed to `emit_events`. -/
def routeCtrlEvent (gyroEnabled : Bool) (buf : List CtrlEvent)
    (ev : CtrlEvent) : List CtrlEvent × List CtrlEvent :=
  if gyroEnabled then (buf ++ [ev], [])
  else (buf, [ev])

/-! ## Event emitter (`emit_events`) -/

/-- One write to the virtual device: either `new_device.write_event(e)` or
the synchronization marker `new_device.syn()`. -/
inductive WriteOp where
  | write (e : OutEvent)
  | syn
deriving DecidableEq

/-- `emit_events`: an empty batch returns immediately; otherwise every
event is written in list order and then `syn()` is called once.  (The
source's `if event:` guard never skips anything: `InputEvent` objects are
always truthy in Python.) -/
def emit_events (events : List OutEvent) : List WriteOp :=
  if events = [] then []
  else events.map WriteOp.write ++ [WriteOp.syn]

/-- The event written by a `WriteOp`, if it is a device write. -/
def writeOf : WriteOp → Option OutEvent
  | .write e => some e
  | .syn => none

/-- Whether a `WriteOp` is the synchronization marker. -/
def isSyn : WriteOp → Bool
  | .syn => true
  | .write _ => false

/-! ## Device restoration (`restore`) -/

/-- A node-presence map for the paths involved in restoration: `fs p`
holds exactly when a device node exists at path `p`. -/
abbrev FS := String → Bool

/-- `shutil.move(src, dst)`: fails with `FileNotFoundError` when the
source node is missing, otherwise transfers the node from `src` to
`dst`. -/
def moveFile (src dst : String) (fs : FS) : Except Unit FS :=
  if fs src then
    .ok (fun p => if p = dst then true else if p = src then false else fs p)
  else .error ()

/-- `try: move(src, dst) except FileNotFoundError: pass` — the swallowing
wrapper used for each device in `restore`. -/
def tryRestore (src dst : String) (fs : FS) : FS :=
  match moveFile src dst fs with
  | .ok fs2 => fs2
  | .error _ => fs

/-- The device-restoration section of `restore`: first the keyboard node,
then the controller node, each behind its own swallowing `try`. -/
def restoreDevices (hidKbd origKbd hidCtl origCtl : String) (fs : FS) : FS :=
  tryRestore hidCtl origCtl (tryRestore hidKbd origKbd fs)

/-! ## Startup and task creation (`__init__` / `main`) -/

/-- The BMI160 driver handle (`Driver(0x68)`). -/
structure GyroDevice where
  addr : Nat
deriving DecidableEq

/-- The gyro-acquisition step of `__init__`:
`try: gyro_device = Driver(0x68) except FileNotFoundError: print(...)`.
A driver error is swallowed and leaves `gyro_device = None`; startup
continues either way. -/
def acquireGyro : Except Unit GyroDevice → Option GyroDevice
  | .ok d => some d
  | .error _ => none

/-- Outcome of `__init__` for the parts relevant to the gyro: the source
exits with code 1 when the controller or keyboard is missing, and
otherwise proceeds with whatever `acquireGyro` produced. -/
inductive StartupResult where
  | ok (gyro_device : Option GyroDevice)
  | exited (code : Nat)
deriving DecidableEq

/-- The device-availability tail of `__init__` (lines catching missing
keyboard/controller, then the gyro `try`). -/
def initDevices (controllerFound keyboardFound : Bool)
    (driver : Except Unit GyroDevice) : StartupResult :=
  if !controllerFound || !keyboardFound then .exited 1
  else .ok (acquireGyro driver)

/-- The three capture coroutines `main` may schedule. -/
inductive TaskKind where
  | controllerTask
  | gyroTask
  | keyboardTask
deriving DecidableEq

/-- The task set created by `main`:
`ensure_future(capture_controller_events(...))`, then
`if gyro_device: ensure_future(capture_gyro_events(...))`, then
`ensure_future(capture_keyboard_events(...))`.  (`None` is falsy and a
driver object is truthy, so the gyro task exists iff a device was
acquired.) -/
def mainTasks (gyro_device : Option GyroDevice) : List TaskKind :=
  [TaskKind.controllerTask] ++
    (if gyro_device.isSome then [TaskKind.gyroTask] else []) ++
    [TaskKind.keyboardTask]

/-! ## Helper lemmas about the keyboard step -/

set_option maxHeartbeats 1000000 in
/-- An arming branch only fires on a press edge for a button that is not
already pending. -/
theorem kbdMatch_arm_props {sys : String} {s : KbdState} {ev : KbdEvent}
    {b : Button} (h : kbdMatch sys s ev = KbdAction.arm b) :
    ev.value = 1 ∧ b ∉ s.eventQueue := by
  unfold kbdMatch at h
  repeat' split at h
  all_goals
    first
      | (injection h with hb; subst hb;
         simp only [b1ArmCond, b2ArmCond, b3ArmCond, b4ArmCond, b5ArmCond] at *;
         tauto)
      | (exact absurd h (by simp))

/-- Shape of `kbdStep` when an arming branch fires. -/
theorem kbdStep_eq_arm {sys : String} {s : KbdState} {ev : KbdEvent}
    {b : Button} (hm : kbdMatch sys s ev = KbdAction.arm b) :
    kbdStep sys s ev =
      ({ s with eventQueue := s.eventQueue ++ [b], lastButton := none },
       ⟨match s.lastButton with | some c => 150 * c.length | none => 0,
        flushEvents s.lastButton ev⟩) := by
  obtain ⟨q, lb, g⟩ := s
  unfold kbdStep
  rw [hm]
  cases lb <;> rfl

/-- Shape of `kbdStep` when a release trigger fires. -/
theorem kbdStep_eq_fire {sys : String} {s : KbdState} {ev : KbdEvent}
    {b : Button} (hm : kbdMatch sys s ev = KbdAction.fire b) :
    kbdStep sys s ev =
      ({ s with eventQueue := s.eventQueue.erase b, lastButton := some b },
       ⟨0, pressBatch ev b⟩) := by
  unfold kbdStep
  rw [hm]

/-- Shape of `kbdStep` when button3's second-state branch fires. -/
theorem kbdStep_eq_secondary {sys : String} {s : KbdState} {ev : KbdEvent}
    (hm : kbdMatch sys s ev = KbdAction.secondary) :
    kbdStep sys s ev =
      ({ s with eventQueue := s.eventQueue.erase button3,
                gyroEnabled := !s.gyroEnabled, lastButton := none },
       ⟨match s.lastButton with | some c => 150 * c.length | none => 0,
        flushEvents s.lastButton ev⟩) := by
  obtain ⟨q, lb, g⟩ := s
  unfold kbdStep
  rw [hm]
  cases lb <;> rfl

/-- Shape of `kbdStep` when no branch fires. -/
theorem kbdStep_eq_noRule {sys : String} {s : KbdState} {ev : KbdEvent}
    (hm : kbdMatch sys s ev = KbdAction.noRule) :
    kbdStep sys s ev =
      ({ s with lastButton := none },
       ⟨match s.lastButton with | some c => 150 * c.length | none => 0,
        flushEvents s.lastButton ev⟩) := by
  obtain ⟨q, lb, g⟩ := s
  unfold kbdStep
  rw [hm]
  cases lb <;> rfl

/-- The pending-chord queue after a step: unchanged, extended by a fresh
button, or with one button erased. -/
theorem kbdStep_queue_cases (sys : String) (s : KbdState) (ev : KbdEvent) :
    (kbdStep sys s ev).1.eventQueue = s.eventQueue ∨
    (∃ b, b ∉ s.eventQueue ∧
      (kbdStep sys s ev).1.eventQueue = s.eventQueue ++ [b]) ∨
    (∃ b, (kbdStep sys s ev).1.eventQueue = s.eventQueue.erase b) := by
  cases hm : kbdMatch sys s ev with
  | arm b =>
      right; left
      exact ⟨b, (kbdMatch_arm_props hm).2, by rw [kbdStep_eq_arm hm]⟩
  | fire b => right; right; exact ⟨b, by rw [kbdStep_eq_fire hm]⟩
  | secondary => right; right; exact ⟨button3, by rw [kbdStep_eq_secondary hm]⟩
  | noRule => left; rw [kbdStep_eq_noRule hm]

/-- A step preserves freedom from duplicate pending chords. -/
theorem kbdStep_nodup {sys : String} {s : KbdState} {ev : KbdEvent}
    (h : s.eventQueue.Nodup) : (kbdStep sys s ev).1.eventQueue.Nodup := by
  rcases kbdStep_queue_cases sys s ev with hq | ⟨b, hb, hq⟩ | ⟨b, hq⟩
  · rw [hq]; exact h
  · rw [hq]
    exact h.append (List.nodup_singleton b)
      (fun x hx hx2 => by simp at hx2; subst hx2; exact hb hx)
  · rw [hq]; exact h.erase b

/-- A step never increases the multiplicity of a pending button. -/
theorem kbdStep_count_le {sys : String} {s : KbdState} {ev : KbdEvent}
    {b : Button} (hb : b ∈ s.eventQueue) :
    ((kbdStep sys s ev).1.eventQueue).count b ≤ s.eventQueue.count b := by
  rcases kbdStep_queue_cases sys s ev with hq | ⟨c, hc, hq⟩ | ⟨c, hq⟩
  · rw [hq]
  · rw [hq, List.count_append]
    have hz : ([c].count b) = 0 := by
      rw [List.count_eq_zero]
      intro hmem
      simp at hmem
      subst hmem
      exact hc hb
    omega
  · rw [hq]
    exact (List.erase_sublist c s.eventQueue).count_le b

/-- Folding the step over any event list preserves a duplicate-free
queue. -/
theorem runKbd_foldl_nodup (sys : String) :
    ∀ (evs : List KbdEvent) (s : KbdState), s.eventQueue.Nodup →
      ((evs.foldl (fun t ev => (kbdStep sys t ev).1) s).eventQueue).Nodup := by
  intro evs
  induction evs with
  | nil => intro s h; simpa using h
  | cons e rest ih =>
      intro s h
      rw [List.foldl_cons]
      exact ih _ (kbdStep_nodup h)

/-! ## Claim C1 -/

/-- C1 (counterexample): a press edge whose fingerprint matches button1's
entry pattern with no pending chord arms the button but emits nothing —
the press batch is not emitted at the arming event, refuting the claim
that the matcher emits the press batch on the arming transition. -/
theorem C1_counterexample :
    (kbdStep "AYA_GEN2" initialKbdState ⟨0, 0, 125, 1, [99, 125]⟩).2.events = [] ∧
    (kbdStep "AYA_GEN2" initialKbdState ⟨0, 0, 125, 1, [99, 125]⟩).1.eventQueue =
      [button1] ∧
    pressBatch ⟨0, 0, 125, 1, [99, 125]⟩ button1 ≠ [] := by decide

/-- C1 (amended): when an arming branch fires (fingerprint matches an
entry pattern, edge is press, no pending chord for that button), the step
appends the button to the pending-chord queue and emits only a previously
pending release flush — nothing at all when no flush is pending; the press
batch is deferred to the release trigger.  An event firing no branch
leaves the queue unchanged and emits nothing when no flush is pending. -/
theorem C1_arming_defers_press (sys : String) (s : KbdState) (ev : KbdEvent)
    (b : Button) :
    (kbdMatch sys s ev = KbdAction.arm b →
      ev.value = 1 ∧ b ∉ s.eventQueue ∧
      (kbdStep sys s ev).1.eventQueue = s.eventQueue ++ [b] ∧
      (kbdStep sys s ev).2.events = flushEvents s.lastButton ev ∧
      (s.lastButton = none → (kbdStep sys s ev).2.events = [])) ∧
    (kbdMatch sys s ev = KbdAction.noRule →
      (kbdStep sys s ev).1.eventQueue = s.eventQueue ∧
      (s.lastButton = none → (kbdStep sys s ev).2.events = [])) := by
  constructor
  · intro hm
    obtain ⟨hv, hq⟩ := kbdMatch_arm_props hm
    rw [kbdStep_eq_arm hm]
    exact ⟨hv, hq, rfl, rfl, fun hn => by rw [hn]; rfl⟩
  · intro hm
    rw [kbdStep_eq_noRule hm]
    exact ⟨rfl, fun hn => by rw [hn]; rfl⟩

/-- C1 (witness): the amended theorem applied to the arming event of the
counterexample. -/
theorem C1_witness :
    (kbdStep "AYA_GEN2" initialKbdState ⟨0, 0, 125, 1, [99, 125]⟩).1.eventQueue =
      ([] : List Button) ++ [button1] ∧
    (kbdStep "AYA_GEN2" initialKbdState ⟨0, 0, 125, 1, [99, 125]⟩).2.events = [] :=
  ⟨((C1_arming_defers_press "AYA_GEN2" initialKbdState ⟨0, 0, 125, 1, [99, 125]⟩
      button1).1 (by decide)).2.2.1,
   ((C1_arming_defers_press "AYA_GEN2" initialKbdState ⟨0, 0, 125, 1, [99, 125]⟩
      button1).1 (by decide)).2.2.2.2 rfl⟩

/-! ## Claim C2 -/

/-- C2 (counterexample): with button2 pending (reachable from the initial
state), its release trigger emits the PRESS batch (all values 1, no
delay), not the release batch after 150 ms, refuting the claim about the
release-trigger transition. -/
theorem C2_counterexample :
    runKbd "AYA_GEN2" [⟨0, 0, 133, 1, [40, 133]⟩] =
      (⟨[button2], none, false⟩ : KbdState) ∧
    (kbdStep "AYA_GEN2" ⟨[button2], none, false⟩ ⟨5, 0, 40, 0, []⟩).2.events =
      pressBatch ⟨5, 0, 40, 0, []⟩ button2 ∧
    (∀ e ∈ (kbdStep "AYA_GEN2" ⟨[button2], none, false⟩ ⟨5, 0, 40, 0, []⟩).2.events,
      e.value = 1) ∧
    (kbdStep "AYA_GEN2" ⟨[button2], none, false⟩ ⟨5, 0, 40, 0, []⟩).2.events ≠
      releaseBatch ⟨5, 0, 40, 0, []⟩ button2 ∧
    (kbdStep "AYA_GEN2" ⟨[button2], none, false⟩ ⟨5, 0, 40, 0, []⟩).2.delayMs = 0 := by
  decide

/-- C2 (amended): the release trigger destroys the pending chord, emits
the press batch immediately, and parks the chord in the flush slot; the
mirrored release batch — same `(event_type, code)` pairs in the same
order, all with value 0 — is emitted on the next event that fires no
release trigger, with an accumulated debounce delay of 150 ms per chord
pair before the batch is written. -/
theorem C2_release_deferred (sys : String) (s : KbdState) (ev : KbdEvent)
    (b : Button) :
    (kbdMatch sys s ev = KbdAction.fire b →
      (kbdStep sys s ev).1.eventQueue = s.eventQueue.erase b ∧
      (kbdStep sys s ev).1.lastButton = some b ∧
      (kbdStep sys s ev).2.events = pressBatch ev b ∧
      (kbdStep sys s ev).2.delayMs = 0) ∧
    ((∀ c, kbdMatch sys s ev ≠ KbdAction.fire c) → s.lastButton = some b →
      (kbdStep sys s ev).2.events = releaseBatch ev b ∧
      (kbdStep sys s ev).2.delayMs = 150 * b.length ∧
      (kbdStep sys s ev).1.lastButton = none) ∧
    ((releaseBatch ev b).map (fun e => (e.etype, e.code)) =
      (pressBatch ev b).map (fun e => (e.etype, e.code))) ∧
    (∀ e ∈ releaseBatch ev b, e.value = 0) := by
  refine ⟨?_, ?_, ?_, ?_⟩
  · intro hm
    rw [kbdStep_eq_fire hm]
    exact ⟨rfl, rfl, rfl, rfl⟩
  · intro hnf hl
    cases hm : kbdMatch sys s ev with
    | arm c => rw [kbdStep_eq_arm hm, hl]; exact ⟨rfl, rfl, rfl⟩
    | fire c => exact absurd hm (hnf c)
    | secondary => rw [kbdStep_eq_secondary hm, hl]; exact ⟨rfl, rfl, rfl⟩
    | noRule => rw [kbdStep_eq_noRule hm, hl]; exact ⟨rfl, rfl, rfl⟩
  · simp [releaseBatch, pressBatch, List.map_map]
  · intro e he
    simp only [releaseBatch, List.mem_map] at he
    obtain ⟨p, -, rfl⟩ := he
    rfl

/-- C2 (witness): both implications of the amended theorem at concrete
inputs — the release trigger of a pending button2, and a no-trigger event
flushing a parked button2. -/
theorem C2_witness :
    ((kbdStep "AYA_GEN2" ⟨[button2], none, false⟩ ⟨5, 0, 40, 0, []⟩).2.events =
        pressBatch ⟨5, 0, 40, 0, []⟩ button2 ∧
      (kbdStep "AYA_GEN2" ⟨[button2], none, false⟩ ⟨5, 0, 40, 0, []⟩).2.delayMs = 0) ∧
    ((kbdStep "AYA_GEN2" ⟨[], some button2, false⟩ ⟨6, 0, 7, 1, [2]⟩).2.events =
        releaseBatch ⟨6, 0, 7, 1, [2]⟩ button2 ∧
      (kbdStep "AYA_GEN2" ⟨[], some button2, false⟩ ⟨6, 0, 7, 1, [2]⟩).2.delayMs =
        150 * button2.length) := by
  have h1 := (C2_release_deferred "AYA_GEN2" ⟨[button2], none, false⟩
    ⟨5, 0, 40, 0, []⟩ button2).1 (by decide)
  have h2 := (C2_release_deferred "AYA_GEN2" ⟨[], some button2, false⟩
    ⟨6, 0, 7, 1, [2]⟩ button2).2.1
    (fun c hcon => by
      rw [show kbdMatch "AYA_GEN2" (⟨[], some button2, false⟩ : KbdState)
          ⟨6, 0, 7, 1, [2]⟩ = KbdAction.noRule from by decide] at hcon
      cases hcon)
    rfl
  exact ⟨⟨h1.2.2.1, h1.2.2.2⟩, h2.1, h2.2.1⟩

/-! ## Claim C3 -/

/-- C3 (counterexample): with button2 pending (reachable from the initial
state), a press edge whose fingerprint `[97, 100, 111]` matches button2's
entry pattern does produce an emission: the event's code 100 satisfies
button2's release guard (which ignores the edge value), so the press batch
fires and the pending entry is consumed — refuting "no additional
emission". -/
theorem C3_counterexample :
    runKbd "AYA_GEN2" [⟨0, 0, 111, 1, [97, 100, 111]⟩] =
      (⟨[button2], none, false⟩ : KbdState) ∧
    (kbdStep "AYA_GEN2" ⟨[button2], none, false⟩
      ⟨1, 0, 100, 1, [97, 100, 111]⟩).2.events ≠ [] ∧
    (kbdStep "AYA_GEN2" ⟨[button2], none, false⟩
      ⟨1, 0, 100, 1, [97, 100, 111]⟩).2.events =
      pressBatch ⟨1, 0, 100, 1, [97, 100, 111]⟩ button2 ∧
    (kbdStep "AYA_GEN2" ⟨[button2], none, false⟩
      ⟨1, 0, 100, 1, [97, 100, 111]⟩).1.eventQueue = [] := by decide

/-- C3 (amended): after any event sequence the pending-chord queue holds
no duplicate entries (at most one pending chord per logical button), and
a further event never arms a button that is already pending nor increases
its multiplicity in the queue; however such an event may still fire the
button's release trigger (emitting the press batch and consuming the
entry), since some release guards ignore the press edge. -/
theorem C3_pending_invariant (sys : String) (evs : List KbdEvent) :
    ((runKbd sys evs).eventQueue).Nodup ∧
    (∀ (ev : KbdEvent) (b : Button), b ∈ (runKbd sys evs).eventQueue →
      kbdMatch sys (runKbd sys evs) ev ≠ KbdAction.arm b ∧
      ((kbdStep sys (runKbd sys evs) ev).1.eventQueue).count b ≤
        ((runKbd sys evs).eventQueue).count b) := by
  constructor
  · exact runKbd_foldl_nodup sys evs initialKbdState List.nodup_nil
  · intro ev b hb
    constructor
    · intro hcon
      exact (kbdMatch_arm_props hcon).2 hb
    · exact kbdStep_count_le hb

/-- C3 (witness): the amended theorem applied to the counterexample's
state, where button2 is pending. -/
theorem C3_witness :
    kbdMatch "AYA_GEN2" (runKbd "AYA_GEN2" [⟨0, 0, 111, 1, [97, 100, 111]⟩])
        ⟨1, 0, 100, 1, [97, 100, 111]⟩ ≠ KbdAction.arm button2 ∧
    ((kbdStep "AYA_GEN2" (runKbd "AYA_GEN2" [⟨0, 0, 111, 1, [97, 100, 111]⟩])
        ⟨1, 0, 100, 1, [97, 100, 111]⟩).1.eventQueue).count button2 ≤
      ((runKbd "AYA_GEN2" [⟨0, 0, 111, 1, [97, 100, 111]⟩]).eventQueue).count button2 :=
  (C3_pending_invariant "AYA_GEN2" [⟨0, 0, 111, 1, [97, 100, 111]⟩]).2
    ⟨1, 0, 100, 1, [97, 100, 111]⟩ button2 (by decide)

/-! ## Claim C6 -/

/-- Mapping a release batch back to its `(event_type, code)` pairs
recovers the chord. -/
theorem releaseBatch_pairs (ev : KbdEvent) (b : Button) :
    (releaseBatch ev b).map (fun e => (e.etype, e.code)) = b := by
  induction b with
  | nil => rfl
  | cons p t ih =>
      simp only [releaseBatch, List.map_cons] at ih ⊢
      rw [ih]

/-- The second-state branch fires for a held ESC event whenever button3 is
pending, unless button2's release guard captures the event first (which
requires an empty active set with button2 also pending). -/
theorem kbdMatch_secondary_char {sys : String} {s : KbdState} {ev : KbdEvent}
    (hc : ev.code = 1) (hv : ev.value = 2) (hq : button3 ∈ s.eventQueue)
    (hb2 : ¬(ev.active = [] ∧ button2 ∈ s.eventQueue)) :
    kbdMatch sys s ev = KbdAction.secondary := by
  have n1 : ¬ b1ArmCond sys s ev := by
    intro k; unfold b1ArmCond at k; exact absurd k.2.1 (by omega)
  have n2 : ¬ b1FireCond s ev := by
    intro k; unfold b1FireCond at k; exact absurd k.2.2.1 (by omega)
  have n3 : ¬ b2ArmCond s ev := by
    intro k; unfold b2ArmCond at k; exact absurd k.2.1 (by omega)
  have n4 : ¬ b2FireCond s ev := by
    intro k; unfold b2FireCond at k
    rcases k with ⟨hA | hA, hB⟩
    · exact hb2 ⟨hA, hB⟩
    · rw [hc] at hA; exact absurd hA (by decide)
  have n5 : ¬ b3ArmCond s ev := by
    intro k; unfold b3ArmCond at k; exact absurd k.2.1 (by omega)
  have n6 : ¬ b3FireCond s ev := by
    intro k; unfold b3FireCond at k; exact absurd k.2.2.1 (by omega)
  have p7 : b3SecondCond s ev := by
    unfold b3SecondCond; exact ⟨hc, hv, hq⟩
  unfold kbdMatch
  rw [if_neg n1, if_neg n2, if_neg n3, if_neg n4, if_neg n5, if_neg n6, if_pos p7]

/-- C6 (counterexample): with both button2 and button3 pending (reachable
from the initial state) and an ESC held-edge event whose active-key
snapshot is empty, button2's release guard preempts the second-state
branch: the gyro flag is not toggled, button3 stays pending, and button2's
press batch is emitted instead. -/
theorem C6_counterexample :
    runKbd "AYA_GEN2" [⟨0, 0, 133, 1, [40, 133]⟩, ⟨1, 0, 1, 1, [1]⟩] =
      (⟨[button2, button3], none, false⟩ : KbdState) ∧
    (kbdStep "AYA_GEN2" ⟨[button2, button3], none, false⟩
      ⟨2, 0, 1, 2, []⟩).1.gyroEnabled = false ∧
    button3 ∈ (kbdStep "AYA_GEN2" ⟨[button2, button3], none, false⟩
      ⟨2, 0, 1, 2, []⟩).1.eventQueue ∧
    (kbdStep "AYA_GEN2" ⟨[button2, button3], none, false⟩
      ⟨2, 0, 1, 2, []⟩).2.events = pressBatch ⟨2, 0, 1, 2, []⟩ button2 := by decide

/-- C6 (amended): when button3 (ESC) is pending and an event with code 1
and edge value 2 arrives, then — provided button2's release guard does not
capture the event first (empty active set with button2 also pending) —
the matcher toggles the gyro-enable flag, erases button3's pending chord,
and emits only a previously parked release flush (nothing when none is
parked); in particular it emits no release batch for the ESC chord in
response to that event. -/
theorem C6_secondary_toggle (sys : String) (s : KbdState) (ev : KbdEvent)
    (hc : ev.code = 1) (hv : ev.value = 2) (hq : button3 ∈ s.eventQueue)
    (hb2 : ¬(ev.active = [] ∧ button2 ∈ s.eventQueue)) :
    (kbdStep sys s ev).1.gyroEnabled = !s.gyroEnabled ∧
    (kbdStep sys s ev).1.eventQueue = s.eventQueue.erase button3 ∧
    (kbdStep sys s ev).2.events = flushEvents s.lastButton ev ∧
    (s.lastButton = none → (kbdStep sys s ev).2.events = []) ∧
    (s.lastButton ≠ some button3 →
      (kbdStep sys s ev).2.events ≠ releaseBatch ev button3) := by
  have hm := @kbdMatch_secondary_char sys s ev hc hv hq hb2
  rw [kbdStep_eq_secondary hm]
  refine ⟨rfl, rfl, rfl, fun hn => by rw [hn]; rfl, ?_⟩
  intro hne hcon
  cases hl : s.lastButton with
  | none =>
      rw [hl] at hcon
      exact absurd hcon.symm (by
        simp [flushEvents, releaseBatch, button3, EVENT_ESC])
  | some c =>
      rw [hl] at hcon hne
      have hcon2 : releaseBatch ev c = releaseBatch ev button3 := hcon
      have hc3 : c = button3 := by
        rw [← releaseBatch_pairs ev c, ← releaseBatch_pairs ev button3, hcon2]
      exact hne (by rw [hc3])

/-- C6 (witness): the amended theorem at a reachable state with button2
and button3 pending and a held ESC event with ESC still in the active
set. -/
theorem C6_witness :
    (kbdStep "AYA_GEN2" ⟨[button2, button3], none, false⟩
      ⟨2, 0, 1, 2, [1]⟩).1.gyroEnabled = !false ∧
    (kbdStep "AYA_GEN2" ⟨[button2, button3], none, false⟩
      ⟨2, 0, 1, 2, [1]⟩).1.eventQueue = [button2, button3].erase button3 ∧
    (kbdStep "AYA_GEN2" ⟨[button2, button3], none, false⟩
      ⟨2, 0, 1, 2, [1]⟩).2.events = [] :=
  have h := C6_secondary_toggle "AYA_GEN2" ⟨[button2, button3], none, false⟩
    ⟨2, 0, 1, 2, [1]⟩ rfl rfl (by decide) (by decide)
  ⟨h.1, h.2.1, h.2.2.2.1 rfl⟩

/-! ## Claim C4 -/

/-- `writeOf` undoes a `write` wrapper. -/
theorem writeOf_write (e : OutEvent) : writeOf (WriteOp.write e) = some e := rfl

/-- Recovering the written events from a mapped batch gives back the
batch. -/
theorem filterMap_writeOf_map (l : List OutEvent) :
    (l.map WriteOp.write).filterMap writeOf = l := by
  induction l with
  | nil => rfl
  | cons a t ih => simp [List.filterMap_cons, writeOf, ih]

/-- A mapped batch contains no synchronization markers. -/
theorem countP_isSyn_map (l : List OutEvent) :
    (l.map WriteOp.write).countP (fun w => isSyn w) = 0 := by
  induction l with
  | nil => rfl
  | cons a t ih => simp [List.countP_cons, isSyn, ih]

/-- C4: `emit_events` writes exactly the given events, in order, and then
exactly one synchronization marker when the batch is non-empty; an empty
batch produces no writes and no marker. -/
theorem C4_emit_events_framing (events : List OutEvent) :
    (emit_events events).filterMap writeOf = events ∧
    (emit_events events).countP (fun w => isSyn w) =
      (if events = [] then 0 else 1) ∧
    (emit_events events).getLast? =
      (if events = [] then none else some WriteOp.syn) ∧
    emit_events [] = [] := by
  refine ⟨?_, ?_, ?_, rfl⟩
  · by_cases h : events = []
    · subst h; rfl
    · rw [emit_events, if_neg h, List.filterMap_append, filterMap_writeOf_map]
      simp [List.filterMap_cons, writeOf]
  · by_cases h : events = []
    · subst h; rfl
    · rw [emit_events, if_neg h, if_neg h, List.countP_append, countP_isSyn_map]
      simp [List.countP_cons, isSyn]
  · by_cases h : events = []
    · subst h; rfl
    · rw [emit_events, if_neg h, if_neg h, List.getLast?_concat]

/-! ## Claim C5 -/

/-- C5: every adjusted axis value — buffered-event adjustment and
synthetic-tick output alike — lies within `[JOY_MIN, JOY_MAX]`, and the
spec's scenario (held value 32000, raw delta +2000) clamps to
`JOY_MAX = 32767` rather than 34000. -/
theorem C5_axis_values_clamped :
    (∀ delta v : Int, JOY_MIN ≤ adjustedVal delta v ∧ adjustedVal delta v ≤ JOY_MAX) ∧
    (∀ (dx dy : Int) (st : GyroLoopState),
      JOY_MIN ≤ (syntheticTick dx dy st).1.value ∧
      (syntheticTick dx dy st).1.value ≤ JOY_MAX ∧
      JOY_MIN ≤ (syntheticTick dx dy st).2.value ∧
      (syntheticTick dx dy st).2.value ≤ JOY_MAX) ∧
    adjustedVal 2000 32000 = JOY_MAX := by
  have key : ∀ delta v : Int,
      JOY_MIN ≤ adjustedVal delta v ∧ adjustedVal delta v ≤ JOY_MAX := by
    intro d v
    unfold adjustedVal
    exact ⟨le_max_right _ _, max_le (min_le_right _ _) (by decide)⟩
  exact ⟨key,
    fun dx dy st => ⟨(key dx st.last_x_val).1, (key dx st.last_x_val).2,
      (key dy st.last_y_val).1, (key dy st.last_y_val).2⟩,
    by decide⟩

/-! ## Claim C7 -/

/-- C7: draining a three-event buffer processes the first and the third
event and leaves the second one in the buffer — Python's `remove`-while-
iterating skips every other element — so buffered events are not emitted
in arrival order (the second event is only emitted on a later pass). -/
theorem C7_drain_out_of_order :
    gyroDrain 0 0 ⟨0, 0⟩
        [⟨0, 0, 1, 304, 1⟩, ⟨0, 1, 1, 304, 0⟩, ⟨0, 2, 1, 305, 1⟩] =
      (⟨0, 0⟩, [⟨0, 0, 1, 304, 1⟩, ⟨0, 2, 1, 305, 1⟩], [⟨0, 1, 1, 304, 0⟩]) ∧
    ([⟨0, 0, 1, 304, 1⟩, ⟨0, 2, 1, 305, 1⟩] ++ [⟨0, 1, 1, 304, 0⟩] : List CtrlEvent) ≠
      [⟨0, 0, 1, 304, 1⟩, ⟨0, 1, 1, 304, 0⟩, ⟨0, 2, 1, 305, 1⟩] := by decide

/-! ## Claim C8 -/

/-- C8 (counterexample): with the gyro driver absent, startup succeeds and
no fusion task is scheduled — but controller remapping does not run
unaffected: the ESC secondary trigger (press then hold ESC, a reachable
keyboard sequence) still sets `gyro_enabled`, after which
`capture_controller_events` diverts a native controller event into the
`controller_events` buffer and emits nothing, while the buffer's only
consumer, the gyro fusion task, is not among the scheduled tasks; with
the flag at its startup value the same event would be forwarded
immediately. -/
theorem C8_counterexample :
    initDevices true true (Except.error ()) = StartupResult.ok none ∧
    (mainTasks none).contains TaskKind.gyroTask = false ∧
    (runKbd "AYA_GEN2" [⟨0, 0, 1, 1, [1]⟩, ⟨1, 0, 1, 2, [1]⟩]).gyroEnabled = true ∧
    routeCtrlEvent true [] ⟨9, 0, 1, 304, 1⟩ = ([⟨9, 0, 1, 304, 1⟩], []) ∧
    routeCtrlEvent false [] ⟨9, 0, 1, 304, 1⟩ = ([], [⟨9, 0, 1, 304, 1⟩]) := by
  decide

/-- C8 (amended): a missing gyro driver is swallowed at startup (the
process proceeds with `gyro_device = None` instead of exiting), `main`
schedules only the controller and keyboard capture tasks — no gyro fusion
task exists, so no gyro-derived events can be emitted — and the task set
is exactly the with-gyro task set minus the gyro task.  Keyboard
remapping and, as long as `gyro_enabled` keeps its startup value `False`,
controller passthrough behave as with a gyro present (immediate one-event
forwarding); but the flag stays toggleable, and once set, controller
events are buffered with no emission and no scheduled consumer. -/
theorem C8_gyro_absent_behavior (d : GyroDevice) :
    initDevices true true (Except.error ()) = StartupResult.ok none ∧
    acquireGyro (Except.error ()) = none ∧
    mainTasks none = [TaskKind.controllerTask, TaskKind.keyboardTask] ∧
    (mainTasks none).contains TaskKind.gyroTask = false ∧
    (mainTasks (some d)).erase TaskKind.gyroTask = mainTasks none ∧
    (∀ (buf : List CtrlEvent) (ev : CtrlEvent),
      routeCtrlEvent false buf ev = (buf, [ev]) ∧
      routeCtrlEvent true buf ev = (buf ++ [ev], [])) := by
  exact ⟨rfl, rfl, rfl, rfl, rfl, fun buf ev => ⟨rfl, rfl⟩⟩

/-! ## Claim C9 -/

/-- A swallowed move with a missing source leaves the node map
untouched. -/
theorem tryRestore_of_missing {src dst : String} {fs : FS}
    (h : fs src = false) : tryRestore src dst fs = fs := by
  unfold tryRestore moveFile
  rw [h]
  rfl

/-- Pointwise behaviour of the swallowing move. -/
theorem tryRestore_apply (src dst : String) (fs : FS) (p : String) :
    tryRestore src dst fs p =
      if fs src then
        (if p = dst then true else if p = src then false else fs p)
      else fs p := by
  unfold tryRestore moveFile
  cases h : fs src <;> simp [h]

/-- After the keyboard move, the hidden keyboard path holds no node. -/
theorem tryRestore_src_cleared {src dst : String} (fs : FS) (hne : src ≠ dst) :
    tryRestore src dst fs src = false := by
  rw [tryRestore_apply]
  cases h : fs src <;> simp [h, hne]

/-- C9: device restoration is total (a missing source node is a swallowed
`FileNotFoundError`, never a propagated error), idempotent (running the
restoration section twice equals running it once), and moves rather than
copies — a restored keyboard node exists only at its original path, so
repeated or racing invocations cannot duplicate device nodes. -/
theorem C9_restore_idempotent (hkb okb hct oct : String) (fs : FS)
    (h1 : hkb ≠ okb) (h2 : hkb ≠ hct) (h3 : hkb ≠ oct)
    (h4 : okb ≠ hct) (h5 : okb ≠ oct) (h6 : hct ≠ oct) :
    restoreDevices hkb okb hct oct (restoreDevices hkb okb hct oct fs) =
      restoreDevices hkb okb hct oct fs ∧
    (fs hkb = false → moveFile hkb okb fs = Except.error ()) ∧
    (fs hkb = false → tryRestore hkb okb fs = fs) ∧
    (fs hkb = true →
      restoreDevices hkb okb hct oct fs hkb = false ∧
      restoreDevices hkb okb hct oct fs okb = true) := by
  have hghk : tryRestore hkb okb fs hkb = false := tryRestore_src_cleared fs h1
  have hghc : tryRestore hkb okb fs hct = fs hct := by
    rw [tryRestore_apply]
    cases k : fs hkb <;> simp [k, Ne.symm h4, Ne.symm h2]
  have hfs1hk : restoreDevices hkb okb hct oct fs hkb = false := by
    unfold restoreDevices
    rw [tryRestore_apply, hghk, hghc]
    cases k : fs hct <;> simp [k, h3, h2]
  have hfs1hc : restoreDevices hkb okb hct oct fs hct = false := by
    unfold restoreDevices
    exact tryRestore_src_cleared _ h6
  refine ⟨?_, ?_, ?_, ?_⟩
  · have e1 : tryRestore hkb okb (restoreDevices hkb okb hct oct fs) =
        restoreDevices hkb okb hct oct fs := tryRestore_of_missing hfs1hk
    have e2 : tryRestore hct oct (restoreDevices hkb okb hct oct fs) =
        restoreDevices hkb okb hct oct fs := tryRestore_of_missing hfs1hc
    show tryRestore hct oct (tryRestore hkb okb
      (restoreDevices hkb okb hct oct fs)) = restoreDevices hkb okb hct oct fs
    rw [e1, e2]
  · intro h
    unfold moveFile
    rw [h]
    rfl
  · exact fun h => tryRestore_of_missing h
  · intro h
    constructor
    · exact hfs1hk
    · have hgok : tryRestore hkb okb fs okb = true := by
        rw [tryRestore_apply, h]
        simp
      unfold restoreDevices
      rw [tryRestore_apply, hghc, hgok]
      cases k : fs hct <;> simp [k, h4, h5, Ne.symm h4]

/-- C9 (witness): the restoration theorem at concrete distinct paths and a
node map with both devices hidden. -/
theorem C9_witness :
    restoreDevices "hide/kb" "dev/kb" "hide/ctl" "dev/ctl"
        (restoreDevices "hide/kb" "dev/kb" "hide/ctl" "dev/ctl"
          (fun p => p = "hide/kb" ∨ p = "hide/ctl")) =
      restoreDevices "hide/kb" "dev/kb" "hide/ctl" "dev/ctl"
        (fun p => p = "hide/kb" ∨ p = "hide/ctl") ∧
    restoreDevices "hide/kb" "dev/kb" "hide/ctl" "dev/ctl"
        (fun p => p = "hide/kb" ∨ p = "hide/ctl") "hide/kb" = false ∧
    restoreDevices "hide/kb" "dev/kb" "hide/ctl" "dev/ctl"
        (fun p => p = "hide/kb" ∨ p = "hide/ctl") "dev/kb" = true :=
  have h := C9_restore_idempotent "hide/kb" "dev/kb" "hide/ctl" "dev/ctl"
    (fun p => p = "hide/kb" ∨ p = "hide/ctl")
    (by decide) (by decide) (by decide) (by decide) (by decide) (by decide)
  ⟨h.1, (h.2.2.2 (by decide)).1, (h.2.2.2 (by decide)).2⟩

/-! ## Claim C10 -/

/-- C10: in the buffered path, an `ABS_RY` event whose clamped adjusted
value is exactly 0 is emitted with its original, unadjusted value (the
trailing `if adjusted_val:` guard treats the integer 0 like `None`),
while `last_y_val` is still updated to 0; `ABS_RX` events do not share
this edge case — their event is rebuilt with the adjusted value inside
the `RX` branch, so the emitted value always equals the adjusted one. -/
theorem C10_ry_zero_passthrough (dx dy : Int) (st : GyroLoopState)
    (ev : CtrlEvent) (ht : ev.etype = EV_ABS) (hcode : ev.code = ABS_RY)
    (hzero : adjustedVal dy ev.value = 0) :
    (processGyroEvent dx dy st ev).2 = ev ∧
    (processGyroEvent dx dy st ev).1.last_y_val = 0 ∧
    (processGyroEvent dx dy st ev).1.last_x_val = st.last_x_val ∧
    (∀ ev2 : CtrlEvent, ev2.etype = EV_ABS → ev2.code = ABS_RX →
      (processGyroEvent dx dy st ev2).2.value = adjustedVal dx ev2.value) := by
  have hne : ¬(ev.etype = EV_ABS ∧ ev.code = ABS_RX) := by
    rintro ⟨-, hr⟩
    rw [hcode] at hr
    exact absurd hr (by decide)
  refine ⟨?_, ?_, ?_, ?_⟩
  · unfold processGyroEvent
    rw [if_neg hne, if_pos ⟨ht, hcode⟩, hzero]
    simp
  · unfold processGyroEvent
    rw [if_neg hne, if_pos ⟨ht, hcode⟩, hzero]
    simp
  · unfold processGyroEvent
    rw [if_neg hne, if_pos ⟨ht, hcode⟩, hzero]
    simp
  · intro ev2 ht2 hc2
    unfold processGyroEvent
    rw [if_pos ⟨ht2, hc2⟩]

/-- C10 (witness): the edge case at a concrete `ABS_RY` event with value 5
and a sampled delta of −5 (adjusted value exactly 0), plus the `ABS_RX`
contrast at value 5 with delta −5 (emitted value 0, the adjusted value). -/
theorem C10_witness :
    (processGyroEvent 0 (-5) ⟨7, 8⟩ ⟨0, 0, 3, 4, 5⟩).2 = (⟨0, 0, 3, 4, 5⟩ : CtrlEvent) ∧
    (processGyroEvent 0 (-5) ⟨7, 8⟩ ⟨0, 0, 3, 4, 5⟩).1.last_y_val = 0 ∧
    (processGyroEvent (-5) (-5) ⟨7, 8⟩ ⟨0, 0, 3, 3, 5⟩).2.value =
      adjustedVal (-5) 5 :=
  have h := C10_ry_zero_passthrough 0 (-5) ⟨7, 8⟩ ⟨0, 0, 3, 4, 5⟩
    rfl rfl (by decide)
  have h2 := C10_ry_zero_passthrough (-5) (-5) ⟨7, 8⟩ ⟨0, 0, 3, 4, 5⟩
    rfl rfl (by decide)
  ⟨h.1, h.2.1, h2.2.2.2 ⟨0, 0, 3, 3, 5⟩ rfl rfl⟩

end HandyCon
